import Mathlib

/-!
Shallow embedding of the AVRA device registry and predefined-constant
verifier (src/device.c) together with the external symbol-table interface
it consumes.  Definitions follow the C source; external collaborators
(symbol table, case-insensitive comparison, capability-flag bit values)
are modelled from the specification, as marked in their doc comments.
-/

/-- Capability-flag bit. Modelled from the spec: capability flags are an
opaque bit-set of excluded features; the header defining the bit values is
outside the provided sources, so distinct bits are assigned arbitrarily. -/
def DF_NO_MUL : Nat := 1

/-- Capability-flag bit, modelled from the spec (opaque bit-set). -/
def DF_NO_JMP : Nat := 2

/-- Capability-flag bit, modelled from the spec (opaque bit-set). -/
def DF_NO_LPM : Nat := 4

/-- Capability-flag bit, modelled from the spec (opaque bit-set). -/
def DF_NO_ELPM : Nat := 8

/-- Capability-flag bit, modelled from the spec (opaque bit-set). -/
def DF_NO_SPM : Nat := 16

/-- Capability-flag bit, modelled from the spec (opaque bit-set). -/
def DF_NO_ESPM : Nat := 32

/-- Capability-flag bit, modelled from the spec (opaque bit-set). -/
def DF_NO_MOVW : Nat := 64

/-- Capability-flag bit, modelled from the spec (opaque bit-set). -/
def DF_NO_BREAK : Nat := 128

/-- Capability-flag bit, modelled from the spec (opaque bit-set). -/
def DF_NO_EICALL : Nat := 256

/-- Capability-flag bit, modelled from the spec (opaque bit-set). -/
def DF_NO_EIJMP : Nat := 512

/-- Capability-flag bit, modelled from the spec (opaque bit-set). -/
def DF_AVR8L : Nat := 1024

/-- Capability-flag bit, modelled from the spec (opaque bit-set). -/
def DF_TINY1X : Nat := 2048

/-- Capability-flag bit, modelled from the spec (opaque bit-set). -/
def DF_NO_XREG : Nat := 4096

/-- Capability-flag bit, modelled from the spec (opaque bit-set). -/
def DF_NO_YREG : Nat := 8192

/-- Capability-flag bit, modelled from the spec (opaque bit-set). -/
def DF_NO_LPM_X : Nat := 16384

/-- Capability-flag bit, modelled from the spec (opaque bit-set). -/
def DF_NO_ELPM_X : Nat := 32768

/-- One device descriptor: `struct device` from device.c.  `name = none`
models a NULL name (the default sentinel at index 0 and the terminating
end-of-table entry); the sizes are C `long` values, modelled as `Int`. -/
structure Device where
  name : Option String
  flash_size : Int
  ram_start : Int
  ram_size : Int
  eeprom_size : Int
  flag : Nat
deriving DecidableEq, Repr

/-- Rows 0 to 9 of the registry table, verbatim from the source. -/
def devRows0 : List Device := [
  ⟨none, 4194304, 96, 8388608, 65536, 0⟩,
  ⟨some "ATtiny4", 256, 64, 32, 0, DF_NO_MUL ||| DF_NO_JMP ||| DF_NO_LPM ||| DF_NO_ELPM ||| DF_NO_SPM ||| DF_NO_ESPM ||| DF_NO_MOVW ||| DF_NO_BREAK ||| DF_NO_EICALL ||| DF_NO_EIJMP ||| DF_AVR8L⟩,
  ⟨some "ATtiny5", 256, 64, 32, 0, DF_NO_MUL ||| DF_NO_JMP ||| DF_NO_LPM ||| DF_NO_ELPM ||| DF_NO_SPM ||| DF_NO_ESPM ||| DF_NO_MOVW ||| DF_NO_BREAK ||| DF_NO_EICALL ||| DF_NO_EIJMP ||| DF_AVR8L⟩,
  ⟨some "ATtiny9", 512, 64, 32, 0, DF_NO_MUL ||| DF_NO_JMP ||| DF_NO_LPM ||| DF_NO_ELPM ||| DF_NO_SPM ||| DF_NO_ESPM ||| DF_NO_MOVW ||| DF_NO_BREAK ||| DF_NO_EICALL ||| DF_NO_EIJMP ||| DF_AVR8L⟩,
  ⟨some "ATtiny10", 512, 64, 32, 0, DF_NO_MUL ||| DF_NO_JMP ||| DF_NO_LPM ||| DF_NO_ELPM ||| DF_NO_SPM ||| DF_NO_ESPM ||| DF_NO_MOVW ||| DF_NO_BREAK ||| DF_NO_EICALL ||| DF_NO_EIJMP ||| DF_AVR8L⟩,
  ⟨some "ATtiny11", 512, 0, 0, 0, DF_NO_MUL ||| DF_NO_JMP ||| DF_TINY1X ||| DF_NO_XREG ||| DF_NO_YREG ||| DF_NO_LPM_X ||| DF_NO_ELPM ||| DF_NO_SPM ||| DF_NO_ESPM ||| DF_NO_MOVW ||| DF_NO_BREAK ||| DF_NO_EICALL ||| DF_NO_EIJMP⟩,
  ⟨some "ATtiny12", 512, 0, 0, 64, DF_NO_MUL ||| DF_NO_JMP ||| DF_TINY1X ||| DF_NO_XREG ||| DF_NO_YREG ||| DF_NO_LPM_X ||| DF_NO_ELPM ||| DF_NO_SPM ||| DF_NO_ESPM ||| DF_NO_MOVW ||| DF_NO_BREAK ||| DF_NO_EICALL ||| DF_NO_EIJMP⟩,
  ⟨some "ATtiny13", 512, 96, 64, 64, DF_NO_MUL ||| DF_NO_JMP ||| DF_NO_ELPM ||| DF_NO_ESPM ||| DF_NO_EICALL ||| DF_NO_EIJMP⟩,
  ⟨some "ATtiny13A", 512, 96, 64, 64, DF_NO_MUL ||| DF_NO_JMP ||| DF_NO_ELPM ||| DF_NO_ESPM ||| DF_NO_EICALL ||| DF_NO_EIJMP⟩,
  ⟨some "ATtiny15", 512, 0, 0, 64, DF_NO_MUL ||| DF_NO_JMP ||| DF_NO_XREG ||| DF_NO_YREG ||| DF_NO_LPM_X ||| DF_NO_ELPM ||| DF_NO_SPM ||| DF_NO_ESPM ||| DF_NO_MOVW ||| DF_NO_BREAK ||| DF_NO_EICALL ||| DF_NO_EIJMP ||| DF_TINY1X⟩]

/-- Rows 10 to 19 of the registry table, verbatim from the source. -/
def devRows1 : List Device := [
  ⟨some "ATtiny20", 1024, 64, 128, 0, DF_NO_MUL ||| DF_NO_JMP ||| DF_NO_EIJMP ||| DF_NO_EICALL ||| DF_NO_MOVW ||| DF_NO_LPM ||| DF_NO_ELPM ||| DF_NO_SPM ||| DF_NO_ESPM ||| DF_NO_BREAK ||| DF_AVR8L⟩,
  ⟨some "ATtiny22", 1024, 96, 128, 128, DF_NO_MUL ||| DF_NO_JMP ||| DF_NO_LPM_X ||| DF_NO_ELPM ||| DF_NO_SPM ||| DF_NO_ESPM ||| DF_NO_MOVW ||| DF_NO_BREAK ||| DF_NO_EICALL ||| DF_NO_EIJMP⟩,
  ⟨some "ATtiny24", 1024, 96, 128, 128, DF_NO_MUL ||| DF_NO_JMP ||| DF_NO_ELPM ||| DF_NO_ESPM ||| DF_NO_EICALL ||| DF_NO_EIJMP⟩,
  ⟨some "ATtiny24A", 1024, 96, 128, 128, DF_NO_MUL ||| DF_NO_JMP ||| DF_NO_ELPM ||| DF_NO_ESPM ||| DF_NO_EICALL ||| DF_NO_EIJMP⟩,
  ⟨some "ATtiny25", 1024, 96, 128, 128, DF_NO_MUL ||| DF_NO_JMP ||| DF_NO_ELPM ||| DF_NO_ESPM ||| DF_NO_EICALL ||| DF_NO_EIJMP⟩,
  ⟨some "ATtiny26", 1024, 96, 128, 128, DF_NO_MUL ||| DF_NO_JMP ||| DF_NO_ELPM ||| DF_NO_SPM ||| DF_NO_ESPM ||| DF_NO_MOVW ||| DF_NO_BREAK ||| DF_NO_EICALL ||| DF_NO_EIJMP⟩,
  ⟨some "ATtiny28", 1024, 0, 0, 0, DF_NO_MUL ||| DF_NO_JMP ||| DF_TINY1X ||| DF_NO_XREG ||| DF_NO_YREG ||| DF_NO_LPM_X ||| DF_NO_ELPM ||| DF_NO_SPM ||| DF_NO_ESPM ||| DF_NO_MOVW ||| DF_NO_BREAK ||| DF_NO_EICALL ||| DF_NO_EIJMP⟩,
  ⟨some "ATtiny44", 2048, 96, 256, 256, DF_NO_MUL ||| DF_NO_JMP ||| DF_NO_ELPM ||| DF_NO_ESPM ||| DF_NO_EICALL ||| DF_NO_EIJMP⟩,
  ⟨some "ATtiny44A", 2048, 96, 256, 256, DF_NO_MUL ||| DF_NO_JMP ||| DF_NO_ELPM ||| DF_NO_ESPM ||| DF_NO_EICALL ||| DF_NO_EIJMP⟩,
  ⟨some "ATtiny45", 2048, 96, 256, 256, DF_NO_MUL ||| DF_NO_JMP ||| DF_NO_ELPM ||| DF_NO_ESPM ||| DF_NO_EICALL ||| DF_NO_EIJMP⟩]

/-- Rows 20 to 29 of the registry table, verbatim from the source. -/
def devRows2 : List Device := [
  ⟨some "ATtiny48", 2048, 256, 256, 64, DF_NO_MUL ||| DF_NO_JMP ||| DF_NO_ELPM ||| DF_NO_ESPM ||| DF_NO_EICALL ||| DF_NO_EIJMP⟩,
  ⟨some "ATtiny84", 4096, 96, 512, 512, DF_NO_MUL ||| DF_NO_JMP ||| DF_NO_ELPM ||| DF_NO_ESPM ||| DF_NO_EICALL ||| DF_NO_EIJMP⟩,
  ⟨some "ATtiny85", 4096, 96, 512, 512, DF_NO_MUL ||| DF_NO_JMP ||| DF_NO_ELPM ||| DF_NO_ESPM ||| DF_NO_EICALL ||| DF_NO_EIJMP⟩,
  ⟨some "ATtiny88", 4096, 256, 512, 64, DF_NO_MUL ||| DF_NO_JMP ||| DF_NO_ELPM ||| DF_NO_ESPM ||| DF_NO_EICALL ||| DF_NO_EIJMP⟩,
  ⟨some "ATtiny261A", 1024, 96, 128, 128, DF_NO_MUL ||| DF_NO_JMP ||| DF_NO_ELPM ||| DF_NO_ESPM ||| DF_NO_EICALL ||| DF_NO_EIJMP⟩,
  ⟨some "ATtiny461A", 2048, 96, 256, 256, DF_NO_MUL ||| DF_NO_JMP ||| DF_NO_ELPM ||| DF_NO_ESPM ||| DF_NO_EICALL ||| DF_NO_EIJMP⟩,
  ⟨some "ATtiny861A", 4096, 96, 512, 512, DF_NO_MUL ||| DF_NO_JMP ||| DF_NO_ELPM ||| DF_NO_ESPM ||| DF_NO_EICALL ||| DF_NO_EIJMP⟩,
  ⟨some "ATtiny2313", 1024, 96, 128, 128, DF_NO_MUL ||| DF_NO_JMP ||| DF_NO_ELPM ||| DF_NO_ESPM ||| DF_NO_EICALL ||| DF_NO_EIJMP⟩,
  ⟨some "ATtiny2313A", 1024, 96, 128, 128, DF_NO_MUL ||| DF_NO_JMP ||| DF_NO_ELPM ||| DF_NO_ESPM ||| DF_NO_EICALL ||| DF_NO_EIJMP⟩,
  ⟨some "ATtiny4313", 2048, 96, 256, 256, DF_NO_MUL ||| DF_NO_JMP ||| DF_NO_ELPM ||| DF_NO_ESPM ||| DF_NO_EICALL ||| DF_NO_EIJMP⟩]

/-- Rows 30 to 39 of the registry table, verbatim from the source. -/
def devRows3 : List Device := [
  ⟨some "AT90S1200", 512, 0, 0, 64, DF_NO_MUL ||| DF_NO_JMP ||| DF_TINY1X ||| DF_NO_XREG ||| DF_NO_YREG ||| DF_NO_LPM ||| DF_NO_ELPM ||| DF_NO_SPM ||| DF_NO_ESPM ||| DF_NO_MOVW ||| DF_NO_BREAK ||| DF_NO_EICALL ||| DF_NO_EIJMP⟩,
  ⟨some "AT90S2313", 1024, 96, 128, 128, DF_NO_MUL ||| DF_NO_JMP ||| DF_NO_LPM_X ||| DF_NO_ELPM ||| DF_NO_SPM ||| DF_NO_ESPM ||| DF_NO_MOVW ||| DF_NO_BREAK ||| DF_NO_EICALL ||| DF_NO_EIJMP⟩,
  ⟨some "AT90S2323", 1024, 96, 128, 128, DF_NO_MUL ||| DF_NO_JMP ||| DF_NO_LPM_X ||| DF_NO_ELPM ||| DF_NO_SPM ||| DF_NO_ESPM ||| DF_NO_MOVW ||| DF_NO_BREAK ||| DF_NO_EICALL ||| DF_NO_EIJMP⟩,
  ⟨some "AT90S2333", 1024, 96, 128, 128, DF_NO_MUL ||| DF_NO_JMP ||| DF_NO_LPM_X ||| DF_NO_ELPM ||| DF_NO_SPM ||| DF_NO_ESPM ||| DF_NO_MOVW ||| DF_NO_BREAK ||| DF_NO_EICALL ||| DF_NO_EIJMP⟩,
  ⟨some "AT90S2343", 1024, 96, 128, 128, DF_NO_MUL ||| DF_NO_JMP ||| DF_NO_LPM_X ||| DF_NO_ELPM ||| DF_NO_SPM ||| DF_NO_ESPM ||| DF_NO_MOVW ||| DF_NO_BREAK ||| DF_NO_EICALL ||| DF_NO_EIJMP⟩,
  ⟨some "AT90S4414", 2048, 96, 256, 256, DF_NO_MUL ||| DF_NO_JMP ||| DF_NO_LPM_X ||| DF_NO_ELPM ||| DF_NO_SPM ||| DF_NO_ESPM ||| DF_NO_MOVW ||| DF_NO_BREAK ||| DF_NO_EICALL ||| DF_NO_EIJMP⟩,
  ⟨some "AT90S4433", 2048, 96, 128, 256, DF_NO_MUL ||| DF_NO_JMP ||| DF_NO_LPM_X ||| DF_NO_ELPM ||| DF_NO_SPM ||| DF_NO_ESPM ||| DF_NO_MOVW ||| DF_NO_BREAK ||| DF_NO_EICALL ||| DF_NO_EIJMP⟩,
  ⟨some "AT90S4434", 2048, 96, 256, 256, DF_NO_MUL ||| DF_NO_JMP ||| DF_NO_LPM_X ||| DF_NO_ELPM ||| DF_NO_SPM ||| DF_NO_ESPM ||| DF_NO_MOVW ||| DF_NO_BREAK ||| DF_NO_EICALL ||| DF_NO_EIJMP⟩,
  ⟨some "AT90S8515", 4096, 96, 512, 512, DF_NO_MUL ||| DF_NO_JMP ||| DF_NO_LPM_X ||| DF_NO_ELPM ||| DF_NO_SPM ||| DF_NO_ESPM ||| DF_NO_MOVW ||| DF_NO_BREAK ||| DF_NO_EICALL ||| DF_NO_EIJMP⟩,
  ⟨some "AT90C8534", 4096, 96, 256, 512, DF_NO_MUL ||| DF_NO_JMP ||| DF_NO_LPM_X ||| DF_NO_ELPM ||| DF_NO_SPM ||| DF_NO_ESPM ||| DF_NO_MOVW ||| DF_NO_BREAK ||| DF_NO_EICALL ||| DF_NO_EIJMP⟩]

/-- Rows 40 to 49 of the registry table, verbatim from the source. -/
def devRows4 : List Device := [
  ⟨some "AT90S8535", 4096, 96, 512, 512, DF_NO_MUL ||| DF_NO_JMP ||| DF_NO_LPM_X ||| DF_NO_ELPM ||| DF_NO_SPM ||| DF_NO_ESPM ||| DF_NO_MOVW ||| DF_NO_BREAK ||| DF_NO_EICALL ||| DF_NO_EIJMP⟩,
  ⟨some "ATmega8", 4096, 96, 1024, 512, DF_NO_JMP ||| DF_NO_EICALL ||| DF_NO_EIJMP ||| DF_NO_ELPM ||| DF_NO_ESPM⟩,
  ⟨some "ATmega8A", 4096, 96, 1024, 512, DF_NO_JMP ||| DF_NO_EICALL ||| DF_NO_EIJMP ||| DF_NO_ELPM ||| DF_NO_ESPM⟩,
  ⟨some "ATmega161", 8192, 96, 1024, 512, DF_NO_EICALL ||| DF_NO_EIJMP ||| DF_NO_ELPM ||| DF_NO_ESPM⟩,
  ⟨some "ATmega162", 8192, 256, 1024, 512, DF_NO_EICALL ||| DF_NO_EIJMP ||| DF_NO_ELPM ||| DF_NO_ESPM⟩,
  ⟨some "ATmega163", 8192, 96, 1024, 512, DF_NO_EICALL ||| DF_NO_EIJMP ||| DF_NO_ELPM ||| DF_NO_ESPM⟩,
  ⟨some "ATmega16", 8192, 96, 1024, 512, DF_NO_EICALL ||| DF_NO_EIJMP ||| DF_NO_ELPM ||| DF_NO_ESPM⟩,
  ⟨some "ATmega323", 16384, 96, 2048, 1024, DF_NO_EICALL ||| DF_NO_EIJMP ||| DF_NO_ELPM ||| DF_NO_ESPM⟩,
  ⟨some "ATmega32", 16384, 96, 2048, 1024, DF_NO_EICALL ||| DF_NO_EIJMP ||| DF_NO_ELPM ||| DF_NO_ESPM⟩,
  ⟨some "ATmega603", 32768, 96, 4096, 2048, DF_NO_EICALL ||| DF_NO_EIJMP ||| DF_NO_MUL ||| DF_NO_MOVW ||| DF_NO_LPM_X ||| DF_NO_ELPM ||| DF_NO_SPM ||| DF_NO_ESPM ||| DF_NO_BREAK⟩]

/-- Rows 50 to 59 of the registry table, verbatim from the source. -/
def devRows5 : List Device := [
  ⟨some "ATmega103", 65536, 96, 4096, 4096, DF_NO_EICALL ||| DF_NO_EIJMP ||| DF_NO_MUL ||| DF_NO_MOVW ||| DF_NO_LPM_X ||| DF_NO_ELPM_X ||| DF_NO_SPM ||| DF_NO_ESPM ||| DF_NO_BREAK⟩,
  ⟨some "ATmega104", 65536, 96, 4096, 4096, DF_NO_EICALL ||| DF_NO_EIJMP ||| DF_NO_ESPM⟩,
  ⟨some "ATmega128", 65536, 256, 4096, 4096, DF_NO_EICALL ||| DF_NO_EIJMP ||| DF_NO_ESPM⟩,
  ⟨some "ATmega128A", 65536, 256, 4096, 4096, DF_NO_EICALL ||| DF_NO_EIJMP ||| DF_NO_ESPM⟩,
  ⟨some "ATmega48", 2048, 256, 512, 256, DF_NO_EICALL ||| DF_NO_EIJMP ||| DF_NO_ELPM ||| DF_NO_ESPM⟩,
  ⟨some "ATmega48A", 2048, 256, 512, 256, DF_NO_EICALL ||| DF_NO_EIJMP ||| DF_NO_ELPM ||| DF_NO_ESPM⟩,
  ⟨some "ATmega48P", 2048, 256, 512, 256, DF_NO_EICALL ||| DF_NO_EIJMP ||| DF_NO_ELPM ||| DF_NO_ESPM⟩,
  ⟨some "ATmega48PA", 2048, 256, 512, 256, DF_NO_EICALL ||| DF_NO_EIJMP ||| DF_NO_ELPM ||| DF_NO_ESPM⟩,
  ⟨some "ATmega88", 4096, 256, 1024, 512, DF_NO_EICALL ||| DF_NO_EIJMP ||| DF_NO_ELPM ||| DF_NO_ESPM⟩,
  ⟨some "ATmega88A", 4096, 256, 1024, 512, DF_NO_EICALL ||| DF_NO_EIJMP ||| DF_NO_ELPM ||| DF_NO_ESPM⟩]

/-- Rows 60 to 69 of the registry table, verbatim from the source. -/
def devRows6 : List Device := [
  ⟨some "ATmega88P", 4096, 256, 1024, 512, DF_NO_EICALL ||| DF_NO_EIJMP ||| DF_NO_ELPM ||| DF_NO_ESPM⟩,
  ⟨some "ATmega88PA", 4096, 256, 1024, 512, DF_NO_EICALL ||| DF_NO_EIJMP ||| DF_NO_ELPM ||| DF_NO_ESPM⟩,
  ⟨some "ATmega168", 8192, 256, 1024, 512, DF_NO_EICALL ||| DF_NO_EIJMP ||| DF_NO_ELPM ||| DF_NO_ESPM⟩,
  ⟨some "ATmega168A", 8192, 256, 1024, 512, DF_NO_EICALL ||| DF_NO_EIJMP ||| DF_NO_ELPM ||| DF_NO_ESPM⟩,
  ⟨some "ATmega168P", 8192, 256, 1024, 512, DF_NO_EICALL ||| DF_NO_EIJMP ||| DF_NO_ELPM ||| DF_NO_ESPM⟩,
  ⟨some "ATmega168PA", 8192, 256, 1024, 512, DF_NO_EICALL ||| DF_NO_EIJMP ||| DF_NO_ELPM ||| DF_NO_ESPM⟩,
  ⟨some "ATmega169", 8192, 256, 1024, 512, DF_NO_EICALL ||| DF_NO_EIJMP ||| DF_NO_ELPM ||| DF_NO_ESPM⟩,
  ⟨some "ATmega169A", 8192, 256, 1024, 512, DF_NO_EICALL ||| DF_NO_EIJMP ||| DF_NO_ELPM ||| DF_NO_ESPM⟩,
  ⟨some "ATmega169P", 8192, 256, 1024, 512, DF_NO_EICALL ||| DF_NO_EIJMP ||| DF_NO_ELPM ||| DF_NO_ESPM⟩,
  ⟨some "ATmega169PA", 8192, 256, 1024, 512, DF_NO_EICALL ||| DF_NO_EIJMP ||| DF_NO_ELPM ||| DF_NO_ESPM⟩]

/-- Rows 70 to 79 of the registry table, verbatim from the source. -/
def devRows7 : List Device := [
  ⟨some "ATmega328", 16384, 256, 2048, 1024, DF_NO_EICALL ||| DF_NO_EIJMP ||| DF_NO_ELPM ||| DF_NO_ESPM⟩,
  ⟨some "ATmega328P", 16384, 256, 2048, 1024, DF_NO_EICALL ||| DF_NO_EIJMP ||| DF_NO_ELPM ||| DF_NO_ESPM⟩,
  ⟨some "ATmega328PB", 16384, 256, 2048, 1024, DF_NO_EICALL ||| DF_NO_EIJMP ||| DF_NO_ELPM ||| DF_NO_ESPM⟩,
  ⟨some "ATmega32U4", 16384, 256, 2560, 1024, DF_NO_EICALL ||| DF_NO_EIJMP ||| DF_NO_ELPM ||| DF_NO_ESPM⟩,
  ⟨some "ATmega8515", 8192, 96, 512, 512, DF_NO_EICALL ||| DF_NO_EIJMP ||| DF_NO_ELPM ||| DF_NO_ESPM⟩,
  ⟨some "ATmega1280", 65536, 512, 8192, 4096, DF_NO_EICALL ||| DF_NO_EIJMP ||| DF_NO_ESPM⟩,
  ⟨some "ATmega164P", 8192, 256, 1024, 512, DF_NO_EICALL ||| DF_NO_EIJMP ||| DF_NO_ELPM ||| DF_NO_ESPM⟩,
  ⟨some "ATmega164PA", 8192, 256, 1024, 512, DF_NO_EICALL ||| DF_NO_EIJMP ||| DF_NO_ELPM ||| DF_NO_ESPM⟩,
  ⟨some "ATmega324A", 16384, 256, 2048, 1024, DF_NO_EICALL ||| DF_NO_EIJMP ||| DF_NO_ELPM ||| DF_NO_ESPM⟩,
  ⟨some "ATmega324P", 16384, 256, 2048, 1024, DF_NO_EICALL ||| DF_NO_EIJMP ||| DF_NO_ELPM ||| DF_NO_ESPM⟩]

/-- Rows 80 to 89 of the registry table, verbatim from the source. -/
def devRows8 : List Device := [
  ⟨some "ATmega324PA", 16384, 256, 2048, 1024, DF_NO_EICALL ||| DF_NO_EIJMP ||| DF_NO_ELPM ||| DF_NO_ESPM⟩,
  ⟨some "ATmega644", 32768, 256, 4096, 2048, DF_NO_EICALL ||| DF_NO_EIJMP ||| DF_NO_ELPM ||| DF_NO_ESPM⟩,
  ⟨some "ATmega644P", 32768, 256, 4096, 2096, DF_NO_EICALL ||| DF_NO_EIJMP ||| DF_NO_ELPM ||| DF_NO_ESPM⟩,
  ⟨some "ATmega644PA", 32768, 256, 4096, 2096, DF_NO_EICALL ||| DF_NO_EIJMP ||| DF_NO_ELPM ||| DF_NO_ESPM⟩,
  ⟨some "ATmega1284P", 65536, 256, 16384, 4096, DF_NO_EICALL ||| DF_NO_EIJMP ||| DF_NO_ESPM⟩,
  ⟨some "ATmega1284PA", 65536, 256, 16384, 4096, DF_NO_EICALL ||| DF_NO_EIJMP ||| DF_NO_ESPM⟩,
  ⟨some "ATmega2560", 131072, 512, 8192, 4096, DF_NO_ESPM⟩,
  ⟨some "ATmega2561", 131072, 512, 8192, 4096, DF_NO_ESPM⟩,
  ⟨some "ATmega4809", 24000, 10240, 6000, 256, DF_NO_ELPM ||| DF_NO_ESPM ||| DF_NO_EICALL ||| DF_NO_EIJMP⟩,
  ⟨some "AT94K", 8192, 96, 16384, 0, DF_NO_ELPM ||| DF_NO_SPM ||| DF_NO_ESPM ||| DF_NO_BREAK ||| DF_NO_EICALL ||| DF_NO_EIJMP⟩]

/-- Rows 90 to 90 of the registry table, verbatim from the source. -/
def devRows9 : List Device := [
  ⟨none, 0, 0, 0, 0, 0⟩]

/-- The device registry `device_list[]` from device.c: the default sentinel
at index 0, the named devices in table order, and the terminating entry with
a NULL name (rows concatenated in source order). -/
def device_list : List Device :=
  devRows0 ++ devRows1 ++ devRows2 ++ devRows3 ++ devRows4 ++ devRows5 ++ devRows6 ++ devRows7 ++ devRows8 ++ devRows9

/-- `#define DEV_VAR "__DEVICE__"` -/
def DEV_VAR : String := "__DEVICE__"

/-- `#define FLASH_VAR "__FLASH_SIZE__"` -/
def FLASH_VAR : String := "__FLASH_SIZE__"

/-- `#define EEPROM_VAR "__EEPROM_SIZE__"` -/
def EEPROM_VAR : String := "__EEPROM_SIZE__"

/-- `#define RAM_VAR "__RAM_SIZE__"` -/
def RAM_VAR : String := "__RAM_SIZE__"

/-- The two-character delimiter put before the device name
(macro DEV_PRE FIX in device.c, value double underscore). -/
def DEV_PRE : String := "__"

/-- The two-character delimiter put after the device name
(macro DEV_SUF FIX in device.c, value double underscore). -/
def DEV_SUF : String := "__"

/-- `#define DEF_DEV_NAME "DEFAULT"`: synthetic name used for the sentinel. -/
def DEF_DEV_NAME : String := "DEFAULT"

/-- `#define MAX_DEV_NAME 32`: maximum device name length used by the
bounded string operations building derived symbol names. -/
def MAX_DEV_NAME : Nat := 32

/-- C `strncpy` into a fresh buffer, viewed as the string it produces:
at most `n` characters of `src` are copied. -/
def strncpyC (src : List Char) (n : Nat) : List Char := src.take n

/-- C `strncat`, viewed on the string contents: appends at most `n`
characters of `src` to `dst` (the NUL terminator is implicit). -/
def strncatC (dst src : List Char) (n : Nat) : List Char := dst ++ src.take n

/-- The symbol-name construction in predef_dev: strncpy the two-character
opening delimiter, strncat the base name, strncat the closing delimiter,
each bounded by MAX_DEV_NAME. -/
def buildSymName (base : String) : String :=
  String.mk (strncatC (strncatC (strncpyC DEV_PRE.data MAX_DEV_NAME)
    base.data MAX_DEV_NAME) DEV_SUF.data MAX_DEV_NAME)

/-- The derived symbol name predef_dev builds for loop index `i` and
descriptor `d`: index 0 uses the synthetic DEFAULT name, any other index
uses the descriptor name. -/
def symNameOf (i : Nat) (d : Device) : String :=
  buildSymName (if i = 0 then DEF_DEV_NAME else d.name.getD "")

/-- Modelled from the spec: the external symbol table, holding constants
(define-once) and variables (redefinable), each a name-to-integer binding;
the concrete table type is outside the provided sources. -/
structure SymTable where
  constants : List (String × Int)
  vars : List (String × Int)
deriving DecidableEq, Repr

/-- The empty symbol table. -/
def SymTable.empty : SymTable := ⟨[], []⟩

/-- Constant lookup on the model table (first binding wins). -/
def lookupConst (st : SymTable) (n : String) : Option Int :=
  st.constants.lookup n

/-- Variable lookup on the model table (first binding wins). -/
def lookupVar (st : SymTable) (n : String) : Option Int :=
  st.vars.lookup n

/-- Modelled from the spec: `define_variable` is an unconditional
define/overwrite of a variable binding (def_var in the C source, external). -/
def def_var (st : SymTable) (n : String) (v : Int) : SymTable :=
  { st with vars := (n, v) :: st.vars }

/-- Modelled from the spec: `define_constant` fails (returns none) if a
constant or variable of that name already exists, otherwise adds the
constant binding (def_const in the C source, external). -/
def def_const (st : SymTable) (n : String) (v : Int) : Option SymTable :=
  if (lookupConst st n).isSome || (lookupVar st n).isSome then none
  else some { st with constants := (n, v) :: st.constants }

/-- Modelled from the spec: `constant_exists` collision probe used in
pass 1 (test_constant in the C source, external). -/
def test_constant (st : SymTable) (n : String) : Bool :=
  (lookupConst st n).isSome

/-- Modelled from the spec: `lookup_constant` returns the value when a
constant of that name exists (get_constant in the C source, external). -/
def get_constant (st : SymTable) (n : String) : Option Int :=
  lookupConst st n

/-- ASCII lowercasing of a string, character by character (the C `tolower`
applied across a string). -/
def lowerAscii (s : String) : String :=
  String.mk (s.data.map Char.toLower)

/-- ASCII uppercasing of a string, character by character (the C `toupper`
applied across a string). -/
def upperAscii (s : String) : String :=
  String.mk (s.data.map Char.toUpper)

/-- Modelled from the spec: case-insensitive string comparison
(nocase_strcmp in the C source, external); true iff the strings are equal
after lowercasing each character. -/
def nocase_eq (a b : String) : Bool :=
  a.data.map Char.toLower == b.data.map Char.toLower

/-- The two assembler passes (PASS_1 / PASS_2 in the C source). -/
inductive Pass where
  | one
  | two
deriving DecidableEq, Repr

/-- The failure taxonomy of the verifier, from the spec error-handling
design: a pass-1 name collision, a pass-2 missing constant, or a pass-2
value mismatch carrying the stored (pass-1) and current (pass-2) values. -/
inductive VerifyError where
  | DuplicateSymbol (name : String)
  | MissingSymbol (name : String)
  | ValueMismatch (name : String) (stored current : Int)
deriving DecidableEq, Repr

/-- Device descriptor at table index `i` (out-of-range reads return an
all-zero dummy; all uses stay in range). -/
def devAt (i : Nat) : Device :=
  device_list.getD i ⟨none, 0, 0, 0, 0, 0⟩

/-- def_dev from device.c: defines the four derived variables (device
index, flash size, EEPROM size, RAM size) from the descriptor at the
current selection index, in source order. -/
def def_dev (st : SymTable) (lastDevice : Nat) : SymTable :=
  def_var (def_var (def_var (def_var st DEV_VAR (lastDevice : Int))
    FLASH_VAR (devAt lastDevice).flash_size)
    EEPROM_VAR (devAt lastDevice).eeprom_size)
    RAM_VAR (devAt lastDevice).ram_size

/-- The named devices the scan in get_device visits: entries after the
sentinel, up to the first NULL name (the while-loop bound). -/
def namedDevices : List Device :=
  (device_list.drop 1).takeWhile (fun d => d.name.isSome)

/-- The while-loop of get_device: linear scan from index `i`, returning
the first descriptor whose name compares equal case-insensitively,
together with its table index. -/
def scanLoop : List Device → Nat → String → Option (Device × Nat)
  | [], _, _ => none
  | d :: rest, i, n =>
    if nocase_eq n (d.name.getD "") then some (d, i)
    else scanLoop rest (i + 1) n

/-- get_device from device.c, with the process-wide LastDevice state and
the mutated symbol table made explicit: returns (result, LastDevice,
table).  A `none` name skips the search; otherwise the named entries are
scanned from index 1; in every case def_dev runs on the final selection. -/
def get_device (st : SymTable) (name : Option String) :
    Option Device × Nat × SymTable :=
  match name with
  | none => (some (devAt 0), 0, def_dev st 0)
  | some n =>
    match scanLoop namedDevices 1 n with
    | some (d, i) => (some d, i, def_dev st i)
    | none => (none, 0, def_dev st 0)

/-- The devices the predef_dev for-loop visits: index 0 unconditionally,
then successive entries while their name is non-NULL. -/
def procDevices : List Device :=
  device_list.take 1 ++ (device_list.drop 1).takeWhile (fun d => d.name.isSome)

/-- One iteration of the predef_dev for-loop at table index `i` on
descriptor `d`: in pass 1 the collision probe and the constant definition,
in pass 2 the lookup and the value comparison, exactly as in the source. -/
def predefStep (p : Pass) (i : Nat) (d : Device) (st : SymTable) :
    Except VerifyError SymTable :=
  match p with
  | .one =>
    if test_constant st (symNameOf i d) then
      .error (.DuplicateSymbol (symNameOf i d))
    else
      match def_const st (symNameOf i d) (i : Int) with
      | none => .error (.DuplicateSymbol (symNameOf i d))
      | some st1 => .ok st1
  | .two =>
    match get_constant st (symNameOf i d) with
    | none => .error (.MissingSymbol (symNameOf i d))
    | some j =>
      if (i : Int) ≠ j then .error (.ValueMismatch (symNameOf i d) j (i : Int))
      else .ok st

/-- The for-loop of predef_dev, iterated over the remaining devices with
the running table index `i`, threading the symbol table; a failure carries
the error and the table at that point and stops the iteration. -/
def predefLoop (p : Pass) (ds : List Device) (i : Nat) (st : SymTable) :
    Option VerifyError × SymTable :=
  match ds with
  | [] => (none, st)
  | d :: rest =>
    match predefStep p i d st with
    | .error e => (some e, st)
    | .ok st1 => predefLoop p rest (i + 1) st1

/-- predef_dev from device.c: first def_dev on the current selection,
then the verifying loop over the sentinel and all named devices. -/
def predef_dev (p : Pass) (lastDevice : Nat) (st : SymTable) :
    Option VerifyError × SymTable :=
  predefLoop p procDevices 0 (def_dev st lastDevice)

/-- The (derived symbol name, table index) pairs the predef_dev loop
processes, in order, starting at index `i`. -/
def loopNames : List Device → Nat → List (String × Nat)
  | [], _ => []
  | d :: rest, i => (symNameOf i d, i) :: loopNames rest (i + 1)

/-- Lookup finds the binding just pushed. -/
theorem lkup_cons_self (l : List (String × Int)) (n : String) (v : Int) :
    List.lookup n ((n, v) :: l) = some v := by
  simp [List.lookup]

/-- Lookup passes over a binding with a different key. -/
theorem lkup_cons_ne (l : List (String × Int)) (n m : String) (v : Int)
    (h : n ≠ m) : List.lookup n ((m, v) :: l) = List.lookup n l := by
  have hb : (n == m) = false := beq_eq_false_iff_ne.2 h
  simp [List.lookup, hb]

/-- Lookup in a concatenation finds a binding of the left part when the
left keys are distinct. -/
theorem lkup_append_left (l1 l2 : List (String × Int)) (n : String) (v : Int)
    (hmem : (n, v) ∈ l1) (hnd : (l1.map Prod.fst).Nodup) :
    List.lookup n (l1 ++ l2) = some v := by
  induction l1 with
  | nil => cases hmem
  | cons e t ih =>
    obtain ⟨m, w⟩ := e
    rcases List.mem_cons.1 hmem with heq | hmem2
    · cases heq
      exact lkup_cons_self _ _ _
    · have hnmem : n ∈ t.map Prod.fst := List.mem_map.2 ⟨(n, v), hmem2, rfl⟩
      have hne : n ≠ m := by
        intro h
        exact (List.nodup_cons.1 hnd).1 (h ▸ hnmem)
      rw [List.cons_append, lkup_cons_ne _ _ _ _ hne]
      exact ih hmem2 (List.nodup_cons.1 hnd).2

/-- All-zero descriptor used as the out-of-range default. -/
def devDummy : Device := ⟨none, 0, 0, 0, 0, 0⟩

/-- Pass-1 step on a fresh name: the collision probe passes and the
constant is added. -/
theorem predefStep_one_ok (i : Nat) (d : Device) (st : SymTable)
    (hc : lookupConst st (symNameOf i d) = none)
    (hv : lookupVar st (symNameOf i d) = none) :
    predefStep .one i d st =
      .ok ⟨(symNameOf i d, (i : Int)) :: st.constants, st.vars⟩ := by
  simp [predefStep, test_constant, def_const, hc, hv]

/-- Pass-1 step when the name is already a constant: the collision probe
fires. -/
theorem predefStep_one_dup_const (i : Nat) (d : Device) (st : SymTable)
    (hc : (lookupConst st (symNameOf i d)).isSome) :
    predefStep .one i d st = .error (.DuplicateSymbol (symNameOf i d)) := by
  simp [predefStep, test_constant, hc]

/-- Pass-1 step when the name is already a variable: the constant
definition is refused. -/
theorem predefStep_one_dup_var (i : Nat) (d : Device) (st : SymTable)
    (hc : lookupConst st (symNameOf i d) = none)
    (hv : (lookupVar st (symNameOf i d)).isSome) :
    predefStep .one i d st = .error (.DuplicateSymbol (symNameOf i d)) := by
  simp [predefStep, test_constant, def_const, hc, hv]

/-- Pass-2 step when the constant is missing. -/
theorem predefStep_two_missing (i : Nat) (d : Device) (st : SymTable)
    (h : get_constant st (symNameOf i d) = none) :
    predefStep .two i d st = .error (.MissingSymbol (symNameOf i d)) := by
  simp [predefStep, h]

/-- Pass-2 step when the stored value differs from the current index. -/
theorem predefStep_two_mismatch (i : Nat) (d : Device) (st : SymTable)
    (j : Int) (h : get_constant st (symNameOf i d) = some j)
    (hne : (i : Int) ≠ j) :
    predefStep .two i d st =
      .error (.ValueMismatch (symNameOf i d) j (i : Int)) := by
  simp [predefStep, h, hne]

/-- Pass-2 step when the stored value agrees: the table is untouched. -/
theorem predefStep_two_ok (i : Nat) (d : Device) (st : SymTable)
    (h : get_constant st (symNameOf i d) = some (i : Int)) :
    predefStep .two i d st = .ok st := by
  simp [predefStep, h]

/-- A successful step never changes the variable bindings. -/
theorem predefStep_vars (p : Pass) (i : Nat) (d : Device) (st st1 : SymTable)
    (h : predefStep p i d st = .ok st1) : st1.vars = st.vars := by
  cases p with
  | one =>
    simp only [predefStep] at h
    split at h
    · simp at h
    · split at h
      · simp at h
      · rename_i st2 hdc
        simp only [Except.ok.injEq] at h
        subst h
        unfold def_const at hdc
        split at hdc
        · cases hdc
        · simp only [Option.some.injEq] at hdc
          subst hdc
          rfl
  | two =>
    simp only [predefStep] at h
    split at h
    · simp at h
    · split at h
      · simp at h
      · simp only [Except.ok.injEq] at h
        subst h
        rfl

/-- The loop never changes the variable bindings, whatever the outcome. -/
theorem predefLoop_vars (p : Pass) (ds : List Device) (i : Nat)
    (st : SymTable) : (predefLoop p ds i st).2.vars = st.vars := by
  induction ds generalizing i st with
  | nil => rfl
  | cons d rest ih =>
    cases hstep : predefStep p i d st with
    | error e => simp [predefLoop, hstep]
    | ok st1 =>
      simp only [predefLoop, hstep]
      rw [ih]
      exact predefStep_vars p i d st st1 hstep

/-- Sequencing: a loop over a concatenation first runs the left part, and
on success continues on the right part with the advanced index. -/
theorem predefLoop_append_ok (p : Pass) (l1 l2 : List Device) (i : Nat)
    (st st1 : SymTable) (h : predefLoop p l1 i st = (none, st1)) :
    predefLoop p (l1 ++ l2) i st = predefLoop p l2 (i + l1.length) st1 := by
  induction l1 generalizing i st with
  | nil =>
    simp only [predefLoop, Prod.mk.injEq] at h
    rw [List.nil_append, h.2]
    simp
  | cons d rest ih =>
    simp only [predefLoop, List.cons_append] at h ⊢
    cases hstep : predefStep p i d st with
    | error e => rw [hstep] at h; simp at h
    | ok st2 =>
      rw [hstep] at h
      dsimp only at h ⊢
      simp only [List.append_eq]
      rw [ih (i + 1) st2 h]
      congr 1
      simp only [List.length_cons]
      omega

/-- Short-circuit: once the left part of a concatenation fails, the whole
loop returns that failure and the right part is never visited. -/
theorem predefLoop_append_err (p : Pass) (l1 l2 : List Device) (i : Nat)
    (st st1 : SymTable) (e : VerifyError)
    (h : predefLoop p l1 i st = (some e, st1)) :
    predefLoop p (l1 ++ l2) i st = (some e, st1) := by
  induction l1 generalizing i st with
  | nil => simp [predefLoop] at h
  | cons d rest ih =>
    simp only [predefLoop, List.cons_append] at h ⊢
    cases hstep : predefStep p i d st with
    | error e1 => rw [hstep] at h; dsimp only at h ⊢; exact h
    | ok st2 =>
      rw [hstep] at h
      dsimp only at h ⊢
      simp only [List.append_eq]
      exact ih (i + 1) st2 h

/-- Unfolding the name/index bookkeeping of the loop by one step. -/
theorem loopNames_cons (d : Device) (rest : List Device) (i : Nat) :
    loopNames (d :: rest) i = (symNameOf i d, i) :: loopNames rest (i + 1) :=
  rfl

/-- The k-th processed device contributes the pair (its derived symbol
name, its table index) to the loop bookkeeping. -/
theorem loopNames_getD (ds : List Device) (i k : Nat) (hk : k < ds.length) :
    (symNameOf (i + k) (ds.getD k devDummy), i + k) ∈ loopNames ds i := by
  induction ds generalizing i k with
  | nil => simp at hk
  | cons d rest ih =>
    cases k with
    | zero => simp [loopNames]
    | succ k1 =>
      have hk1 : k1 < rest.length := by
        simp only [List.length_cons] at hk
        omega
      have hmem := ih (i + 1) k1 hk1
      have harith : i + 1 + k1 = i + (k1 + 1) := by omega
      rw [harith] at hmem
      exact List.mem_cons.2 (Or.inr hmem)

/-- Taking a prefix of the devices takes the same prefix of the
bookkeeping. -/
theorem loopNames_take (ds : List Device) (i k : Nat) :
    loopNames (ds.take k) i = (loopNames ds i).take k := by
  induction ds generalizing i k with
  | nil => simp [loopNames]
  | cons d rest ih =>
    cases k with
    | zero => rfl
    | succ k1 => simp [loopNames_cons, List.take_succ_cons, ih]

/-- Pass-1 loop on names that are all fresh and pairwise distinct:
succeeds and adds exactly one constant per processed device, holding its
table index; the variables are untouched. -/
theorem predefLoop_one_ok (ds : List Device) (i : Nat) (st : SymTable)
    (hfresh : ∀ q ∈ loopNames ds i,
      lookupConst st q.1 = none ∧ lookupVar st q.1 = none)
    (hnd : ((loopNames ds i).map Prod.fst).Nodup) :
    predefLoop .one ds i st =
      (none, ⟨((loopNames ds i).map
        (fun q => (q.1, (q.2 : Int)))).reverse ++ st.constants, st.vars⟩) := by
  induction ds generalizing i st with
  | nil => simp [predefLoop, loopNames]
  | cons d rest ih =>
    have hhead := hfresh (symNameOf i d, i) (by simp [loopNames_cons])
    have hstep := predefStep_one_ok i d st hhead.1 hhead.2
    have hni : symNameOf i d ∉ (loopNames rest (i + 1)).map Prod.fst := by
      rw [loopNames_cons] at hnd
      exact (List.nodup_cons.1 (by simpa using hnd)).1
    have hfresh1 : ∀ q ∈ loopNames rest (i + 1),
        lookupConst ⟨(symNameOf i d, (i : Int)) :: st.constants, st.vars⟩ q.1 = none ∧
        lookupVar ⟨(symNameOf i d, (i : Int)) :: st.constants, st.vars⟩ q.1 = none := by
      intro q hq
      have hqf := hfresh q (List.mem_cons.2 (Or.inr (by simpa [loopNames_cons] using hq)))
      have hqne : q.1 ≠ symNameOf i d := by
        intro hEq
        exact hni (hEq ▸ List.mem_map.2 ⟨q, hq, rfl⟩)
      constructor
      · show List.lookup q.1 ((symNameOf i d, (i : Int)) :: st.constants) = none
        rw [lkup_cons_ne _ _ _ _ hqne]
        exact hqf.1
      · exact hqf.2
    have hnd1 : ((loopNames rest (i + 1)).map Prod.fst).Nodup := by
      rw [loopNames_cons] at hnd
      exact (List.nodup_cons.1 (by simpa using hnd)).2
    simp only [predefLoop, hstep]
    rw [ih (i + 1) _ hfresh1 hnd1]
    simp [loopNames_cons, List.reverse_cons, List.append_assoc]

/-- Pass-2 loop when every processed name is a constant holding its table
index: succeeds silently and leaves the table unchanged. -/
theorem predefLoop_two_ok (ds : List Device) (i : Nat) (st : SymTable)
    (h : ∀ q ∈ loopNames ds i, get_constant st q.1 = some (q.2 : Int)) :
    predefLoop .two ds i st = (none, st) := by
  induction ds generalizing i with
  | nil => rfl
  | cons d rest ih =>
    have hhead := h (symNameOf i d, i) (by simp [loopNames_cons])
    have hstep := predefStep_two_ok i d st hhead
    simp only [predefLoop, hstep]
    exact ih (i + 1) (fun q hq =>
      h q (List.mem_cons.2 (Or.inr (by simpa [loopNames_cons] using hq))))

/-- The get_device scan returns nothing when no name compares equal. -/
theorem scanLoop_none (ds : List Device) (i : Nat) (n : String)
    (h : ∀ d ∈ ds, nocase_eq n (d.name.getD "") = false) :
    scanLoop ds i n = none := by
  induction ds generalizing i with
  | nil => rfl
  | cons d rest ih =>
    have hd := h d (List.mem_cons_self d rest)
    simp only [scanLoop, hd]
    exact ih (i + 1) (fun d1 hd1 => h d1 (List.mem_cons.2 (Or.inr hd1)))

/-- def_dev touches no constant binding. -/
theorem lookupConst_def_dev (st : SymTable) (l : Nat) (n : String) :
    lookupConst (def_dev st l) n = lookupConst st n := rfl

/-- After def_dev the device-index variable holds the selection index. -/
theorem lookupVar_def_dev_idx (st : SymTable) (l : Nat) :
    lookupVar (def_dev st l) DEV_VAR = some (l : Int) := rfl

/-- After def_dev the flash-size variable holds the selected flash size. -/
theorem lookupVar_def_dev_flash (st : SymTable) (l : Nat) :
    lookupVar (def_dev st l) FLASH_VAR = some (devAt l).flash_size := rfl

/-- After def_dev the EEPROM-size variable holds the selected size. -/
theorem lookupVar_def_dev_eeprom (st : SymTable) (l : Nat) :
    lookupVar (def_dev st l) EEPROM_VAR = some (devAt l).eeprom_size := rfl

/-- After def_dev the RAM-size variable holds the selected size. -/
theorem lookupVar_def_dev_ram (st : SymTable) (l : Nat) :
    lookupVar (def_dev st l) RAM_VAR = some (devAt l).ram_size := rfl

/-- def_dev leaves every variable other than its four names alone. -/
theorem lookupVar_def_dev_other (st : SymTable) (l : Nat) (n : String)
    (h1 : n ≠ DEV_VAR) (h2 : n ≠ FLASH_VAR) (h3 : n ≠ EEPROM_VAR)
    (h4 : n ≠ RAM_VAR) : lookupVar (def_dev st l) n = lookupVar st n := by
  show List.lookup n
    ((RAM_VAR, (devAt l).ram_size) :: (EEPROM_VAR, (devAt l).eeprom_size) ::
      (FLASH_VAR, (devAt l).flash_size) :: (DEV_VAR, (l : Int)) :: st.vars) =
    lookupVar st n
  rw [lkup_cons_ne _ _ _ _ h4, lkup_cons_ne _ _ _ _ h3,
    lkup_cons_ne _ _ _ _ h2, lkup_cons_ne _ _ _ _ h1]
  rfl

/-- The loop bookkeeping has one pair per processed device. -/
theorem loopNames_length (ds : List Device) (i : Nat) :
    (loopNames ds i).length = ds.length := by
  induction ds generalizing i with
  | nil => rfl
  | cons d rest ih => simp [loopNames_cons, ih]

/-- The k-th bookkeeping pair is the k-th device's derived name and table
index. -/
theorem loopNames_getD_eq (ds : List Device) (i k : Nat)
    (hk : k < ds.length) :
    (loopNames ds i).getD k ("", 0) =
      (symNameOf (i + k) (ds.getD k devDummy), i + k) := by
  induction ds generalizing i k with
  | nil => simp at hk
  | cons d rest ih =>
    cases k with
    | zero => simp [loopNames_cons]
    | succ k1 =>
      have hk1 : k1 < rest.length := by
        simp only [List.length_cons] at hk
        omega
      rw [loopNames_cons, List.getD_cons_succ, List.getD_cons_succ,
        ih (i + 1) k1 hk1]
      have harith : i + 1 + k1 = i + (k1 + 1) := by omega
      rw [harith]

/-- An in-range getD is a member of the list. -/
theorem getD_mem_of_lt {α : Type} (l : List α) (k : Nat) (d : α)
    (h : k < l.length) : l.getD k d ∈ l := by
  rw [List.getD_eq_getElem l d h]
  exact List.getElem_mem h

/-- Pass-1 loop when the names before position k are fresh but the k-th
derived name is already bound (as a constant or as a variable): the loop
stops with a duplicate-symbol failure naming exactly that symbol. -/
theorem predefLoop_one_dup (ds : List Device) (i k : Nat) (st : SymTable)
    (hk : k < ds.length)
    (hnd : ((loopNames ds i).map Prod.fst).Nodup)
    (hfirst : ∀ m, m < k →
      lookupConst st ((loopNames ds i).getD m ("", 0)).1 = none ∧
      lookupVar st ((loopNames ds i).getD m ("", 0)).1 = none)
    (hdup : (lookupConst st ((loopNames ds i).getD k ("", 0)).1).isSome ∨
      (lookupVar st ((loopNames ds i).getD k ("", 0)).1).isSome) :
    (predefLoop .one ds i st).1 =
      some (.DuplicateSymbol ((loopNames ds i).getD k ("", 0)).1) := by
  induction ds generalizing i k st with
  | nil => simp at hk
  | cons d rest ih =>
    cases k with
    | zero =>
      rw [loopNames_cons, List.getD_cons_zero] at hdup ⊢
      rcases hdup with hc | hv
      · have hstep := predefStep_one_dup_const i d st hc
        simp [predefLoop, hstep]
      · cases hcc : lookupConst st (symNameOf i d) with
        | some v =>
          have hstep := predefStep_one_dup_const i d st (by simp [hcc])
          simp [predefLoop, hstep]
        | none =>
          have hstep := predefStep_one_dup_var i d st hcc hv
          simp [predefLoop, hstep]
    | succ k1 =>
      have h0 := hfirst 0 (Nat.succ_pos k1)
      rw [loopNames_cons, List.getD_cons_zero] at h0
      have hstep := predefStep_one_ok i d st h0.1 h0.2
      rw [loopNames_cons, List.getD_cons_succ] at hdup ⊢
      simp only [predefLoop, hstep]
      rw [loopNames_cons] at hnd
      simp only [List.map_cons, List.nodup_cons] at hnd
      have hk1 : k1 < rest.length := by
        simp only [List.length_cons] at hk
        omega
      have hkeymem : ∀ m, m < rest.length →
          ((loopNames rest (i + 1)).getD m ("", 0)).1 ∈
            (loopNames rest (i + 1)).map Prod.fst := by
        intro m hm
        exact List.mem_map.2 ⟨(loopNames rest (i + 1)).getD m ("", 0),
          getD_mem_of_lt _ m _ (by rw [loopNames_length]; exact hm), rfl⟩
      refine ih (i + 1) k1 _ hk1 hnd.2 ?_ ?_
      · intro m hm
        have hsm := hfirst (m + 1) (by omega)
        rw [loopNames_cons, List.getD_cons_succ] at hsm
        have hne : ((loopNames rest (i + 1)).getD m ("", 0)).1 ≠ symNameOf i d :=
          fun hEq => hnd.1 (hEq ▸ hkeymem m (by omega))
        refine ⟨?_, hsm.2⟩
        show List.lookup _ ((symNameOf i d, (i : Int)) :: st.constants) = none
        rw [lkup_cons_ne _ _ _ _ hne]
        exact hsm.1
      · have hne : ((loopNames rest (i + 1)).getD k1 ("", 0)).1 ≠ symNameOf i d :=
          fun hEq => hnd.1 (hEq ▸ hkeymem k1 hk1)
        rcases hdup with hc | hv
        · refine Or.inl ?_
          show (List.lookup _ ((symNameOf i d, (i : Int)) :: st.constants)).isSome
          rw [lkup_cons_ne _ _ _ _ hne]
          exact hc
        · exact Or.inr hv

set_option maxRecDepth 100000 in
/-- The ninety derived symbol names are pairwise distinct. -/
theorem pnKeys_nodup : ((loopNames procDevices 0).map Prod.fst).Nodup := by
  decide

set_option maxRecDepth 100000 in
/-- No derived symbol name collides with the four variable names written
by def_dev. -/
theorem pn_not_var_names : ∀ q ∈ loopNames procDevices 0,
    q.1 ≠ DEV_VAR ∧ q.1 ≠ FLASH_VAR ∧ q.1 ≠ EEPROM_VAR ∧ q.1 ≠ RAM_VAR := by
  decide

/-- Names fresh in a table stay fresh after the def_dev variable writes. -/
theorem fresh_def_dev (st : SymTable) (l : Nat)
    (h : ∀ q ∈ loopNames procDevices 0,
      lookupConst st q.1 = none ∧ lookupVar st q.1 = none) :
    ∀ q ∈ loopNames procDevices 0,
      lookupConst (def_dev st l) q.1 = none ∧
      lookupVar (def_dev st l) q.1 = none := by
  intro q hq
  have h4 := pn_not_var_names q hq
  exact ⟨(lookupConst_def_dev st l q.1).trans (h q hq).1,
    (lookupVar_def_dev_other st l q.1 h4.1 h4.2.1 h4.2.2.1 h4.2.2.2).trans
      (h q hq).2⟩

/-- C1: pass 1 on a table free of the device-derived names succeeds and
defines one constant per processed descriptor — the sentinel under the
synthetic DEFAULT name and every named device in table order — holding
that descriptor's table index, and a pass-2 run of the verifier over the
unmodified registry and the resulting table succeeds (so it reports no
missing-symbol and no value-mismatch failure). -/
theorem claimC1 (st : SymTable) (l1 l2 : Nat)
    (hfresh : ∀ q ∈ loopNames procDevices 0,
      lookupConst st q.1 = none ∧ lookupVar st q.1 = none) :
    (predef_dev .one l1 st).1 = none ∧
    (∀ k, k < procDevices.length →
      lookupConst (predef_dev .one l1 st).2
        (symNameOf k (procDevices.getD k devDummy)) = some (k : Int)) ∧
    (predef_dev .two l2 (predef_dev .one l1 st).2).1 = none := by
  have hfresh1 := fresh_def_dev st l1 hfresh
  have hpd : predef_dev .one l1 st =
      (none, ⟨((loopNames procDevices 0).map
        (fun q => (q.1, (q.2 : Int)))).reverse ++ (def_dev st l1).constants,
        (def_dev st l1).vars⟩) :=
    predefLoop_one_ok procDevices 0 (def_dev st l1) hfresh1 pnKeys_nodup
  have hrevnd : ((((loopNames procDevices 0).map
      (fun q => (q.1, (q.2 : Int)))).reverse).map Prod.fst).Nodup := by
    rw [List.map_reverse, List.map_map]
    refine List.nodup_reverse.2 ?_
    have hcomp : (Prod.fst ∘ fun q : String × Nat => (q.1, (q.2 : Int))) =
        Prod.fst := rfl
    rw [hcomp]
    exact pnKeys_nodup
  have hlook : ∀ q ∈ loopNames procDevices 0,
      lookupConst (predef_dev .one l1 st).2 q.1 = some (q.2 : Int) := by
    intro q hq
    rw [hpd]
    refine lkup_append_left _ _ _ _ ?_ hrevnd
    exact List.mem_reverse.2 (List.mem_map.2 ⟨q, hq, rfl⟩)
  refine ⟨by rw [hpd], ?_, ?_⟩
  · intro k hk
    have hklen : k < (loopNames procDevices 0).length := by
      rw [loopNames_length]
      exact hk
    have hmem := getD_mem_of_lt (loopNames procDevices 0) k ("", 0) hklen
    have hEq := loopNames_getD_eq procDevices 0 k hk
    rw [Nat.zero_add] at hEq
    have hres := hlook _ hmem
    rw [hEq] at hres
    exact hres
  · show (predefLoop .two procDevices 0
      (def_dev (predef_dev .one l1 st).2 l2)).1 = none
    rw [predefLoop_two_ok procDevices 0 _ ?_]
    intro q hq
    show lookupConst _ q.1 = some (q.2 : Int)
    rw [lookupConst_def_dev]
    exact hlook q hq

/-- Concrete run of C1 from the empty symbol table: both passes succeed. -/
theorem claimC1_witness :
    (∀ q ∈ loopNames procDevices 0,
      lookupConst SymTable.empty q.1 = none ∧
      lookupVar SymTable.empty q.1 = none) ∧
    (predef_dev .one 0 SymTable.empty).1 = none ∧
    (predef_dev .two 0 (predef_dev .one 0 SymTable.empty).2).1 = none := by
  have h : ∀ q ∈ loopNames procDevices 0,
      lookupConst SymTable.empty q.1 = none ∧
      lookupVar SymTable.empty q.1 = none :=
    fun q _ => ⟨rfl, rfl⟩
  exact ⟨h, (claimC1 SymTable.empty 0 0 h).1, (claimC1 SymTable.empty 0 0 h).2.2⟩

/-- C2: in pass 2 a device whose derived name has no constant makes the
loop stop at once with a missing-symbol failure; one whose constant holds
a different value makes it stop with a value-mismatch failure reporting
both values; and once a prefix of the iteration has failed, appending
further devices changes nothing — they are never processed. -/
theorem claimC2 (st : SymTable) (i : Nat) (d : Device) (rest : List Device) :
    (get_constant st (symNameOf i d) = none →
      predefLoop .two (d :: rest) i st =
        (some (.MissingSymbol (symNameOf i d)), st)) ∧
    (∀ j : Int, get_constant st (symNameOf i d) = some j → (i : Int) ≠ j →
      predefLoop .two (d :: rest) i st =
        (some (.ValueMismatch (symNameOf i d) j (i : Int)), st)) ∧
    (∀ (l1 l2 : List Device) (i0 : Nat) (st0 st1 : SymTable)
      (e : VerifyError), predefLoop .two l1 i0 st0 = (some e, st1) →
      predefLoop .two (l1 ++ l2) i0 st0 = (some e, st1)) := by
  refine ⟨?_, ?_, ?_⟩
  · intro h
    have hstep := predefStep_two_missing i d st h
    simp [predefLoop, hstep]
  · intro j h hne
    have hstep := predefStep_two_mismatch i d st j h hne
    simp [predefLoop, hstep]
  · intro l1 l2 i0 st0 st1 e h
    exact predefLoop_append_err .two l1 l2 i0 st0 st1 e h

/-- Concrete C2 runs: a missing constant for the sentinel name stops the
pass-2 loop at the first device, and a wrong stored value is reported with
both values; the failure is unchanged by devices appended after it. -/
theorem claimC2_witness :
    predefLoop .two [devAt 0] 0 SymTable.empty =
      (some (.MissingSymbol (symNameOf 0 (devAt 0))), SymTable.empty) ∧
    predefLoop .two [devAt 0]
      0 ⟨[(symNameOf 0 (devAt 0), 5)], []⟩ =
      (some (.ValueMismatch (symNameOf 0 (devAt 0)) 5 0),
        ⟨[(symNameOf 0 (devAt 0), 5)], []⟩) ∧
    predefLoop .two ([devAt 0] ++ [devAt 1, devAt 2]) 0 SymTable.empty =
      (some (.MissingSymbol (symNameOf 0 (devAt 0))), SymTable.empty) := by
  have h1 := (claimC2 SymTable.empty 0 (devAt 0) []).1 rfl
  have h2 := (claimC2 (⟨[(symNameOf 0 (devAt 0), 5)], []⟩ : SymTable)
    0 (devAt 0) []).2.1 5 (by rw [get_constant, lookupConst, lkup_cons_self])
    (by decide)
  refine ⟨h1, h2, ?_⟩
  exact (claimC2 SymTable.empty 0 (devAt 0) []).2.2 [devAt 0] [devAt 1, devAt 2]
    0 SymTable.empty SymTable.empty _ h1

/-- C3: a name matching no registry entry (case-insensitively) makes
get_device return a null result with the selection state left at its reset
value 0, yet the four derived variables are still written, holding the
sentinel descriptor's index and sizes. -/
theorem claimC3 (st : SymTable) (n : String)
    (h : ∀ d ∈ namedDevices, nocase_eq n (d.name.getD "") = false) :
    get_device st (some n) = (none, 0, def_dev st 0) ∧
    lookupVar (get_device st (some n)).2.2 DEV_VAR = some 0 ∧
    lookupVar (get_device st (some n)).2.2 FLASH_VAR =
      some (devAt 0).flash_size ∧
    lookupVar (get_device st (some n)).2.2 EEPROM_VAR =
      some (devAt 0).eeprom_size ∧
    lookupVar (get_device st (some n)).2.2 RAM_VAR =
      some (devAt 0).ram_size := by
  have hscan := scanLoop_none namedDevices 1 n h
  have hg : get_device st (some n) = (none, 0, def_dev st 0) := by
    simp [get_device, hscan]
  refine ⟨hg, ?_, ?_, ?_, ?_⟩ <;> rw [hg]
  · simpa using lookupVar_def_dev_idx st 0
  · exact lookupVar_def_dev_flash st 0
  · exact lookupVar_def_dev_eeprom st 0
  · exact lookupVar_def_dev_ram st 0

set_option maxRecDepth 100000 in
/-- Concrete C3 run: looking up a name absent from the registry. -/
theorem claimC3_witness :
    get_device SymTable.empty (some "no-such-device") =
      (none, 0, def_dev SymTable.empty 0) ∧
    lookupVar (get_device SymTable.empty (some "no-such-device")).2.2
      FLASH_VAR = some (devAt 0).flash_size := by
  have h : ∀ d ∈ namedDevices,
      nocase_eq "no-such-device" (d.name.getD "") = false := by decide
  exact ⟨(claimC3 SymTable.empty "no-such-device" h).1,
    (claimC3 SymTable.empty "no-such-device" h).2.2.1⟩

/-- C4: an absent name skips the search: the selection state stays at the
reset value 0, the four derived variables are written from the sentinel
descriptor at index 0, and the sentinel descriptor itself is returned. -/
theorem claimC4 (st : SymTable) :
    get_device st none = (some (devAt 0), 0, def_dev st 0) ∧
    (devAt 0).name = none ∧
    lookupVar (get_device st none).2.2 DEV_VAR = some 0 ∧
    lookupVar (get_device st none).2.2 FLASH_VAR =
      some (devAt 0).flash_size ∧
    lookupVar (get_device st none).2.2 EEPROM_VAR =
      some (devAt 0).eeprom_size ∧
    lookupVar (get_device st none).2.2 RAM_VAR =
      some (devAt 0).ram_size := by
  refine ⟨rfl, by decide, ?_, ?_, ?_, ?_⟩
  · simpa using lookupVar_def_dev_idx st 0
  · exact lookupVar_def_dev_flash st 0
  · exact lookupVar_def_dev_eeprom st 0
  · exact lookupVar_def_dev_ram st 0

/-- The devices of a list paired with their running table index. -/
def withIdx : List Device → Nat → List (Device × Nat)
  | [], _ => []
  | d :: rest, i => (d, i) :: withIdx rest (i + 1)

/-- The k-th device appears in the indexed pairing with index i + k. -/
theorem withIdx_getD (ds : List Device) (i k : Nat) (hk : k < ds.length) :
    (ds.getD k devDummy, i + k) ∈ withIdx ds i := by
  induction ds generalizing i k with
  | nil => simp at hk
  | cons d rest ih =>
    cases k with
    | zero => simp [withIdx]
    | succ k1 =>
      have hk1 : k1 < rest.length := by
        simp only [List.length_cons] at hk
        omega
      have hmem := ih (i + 1) k1 hk1
      have harith : i + 1 + k1 = i + (k1 + 1) := by omega
      rw [harith] at hmem
      exact List.mem_cons.2 (Or.inr hmem)

set_option maxRecDepth 1000000 in
/-- The scan of get_device, started at index 1 as in the source, finds
every named device at its own position, whether the requested name is
spelled as in the table, all uppercase, or all lowercase. -/
theorem scan_hits_all : ∀ q ∈ withIdx namedDevices 1,
    scanLoop namedDevices 1 (q.1.name.getD "") = some (q.1, q.2) ∧
    scanLoop namedDevices 1 (upperAscii (q.1.name.getD "")) =
      some (q.1, q.2) ∧
    scanLoop namedDevices 1 (lowerAscii (q.1.name.getD "")) =
      some (q.1, q.2) := by
  decide

/-- C5: every non-sentinel registry descriptor is found by get_device
under its own name, its uppercase form, and its lowercase form; the
selection state becomes its table index and the derived variables are
written from it (the scan is the case-insensitive linear pass over the
named entries starting at index 1). -/
theorem claimC5 (st : SymTable) (k : Nat) (hk : k < namedDevices.length) :
    get_device st (some ((namedDevices.getD k devDummy).name.getD "")) =
      (some (namedDevices.getD k devDummy), k + 1, def_dev st (k + 1)) ∧
    get_device st
      (some (upperAscii ((namedDevices.getD k devDummy).name.getD ""))) =
      (some (namedDevices.getD k devDummy), k + 1, def_dev st (k + 1)) ∧
    get_device st
      (some (lowerAscii ((namedDevices.getD k devDummy).name.getD ""))) =
      (some (namedDevices.getD k devDummy), k + 1, def_dev st (k + 1)) := by
  have hmem := withIdx_getD namedDevices 1 k hk
  have harith : 1 + k = k + 1 := by omega
  rw [harith] at hmem
  have hs1 : scanLoop namedDevices 1
      ((namedDevices.getD k devDummy).name.getD "") =
      some (namedDevices.getD k devDummy, k + 1) := (scan_hits_all _ hmem).1
  have hs2 : scanLoop namedDevices 1
      (upperAscii ((namedDevices.getD k devDummy).name.getD "")) =
      some (namedDevices.getD k devDummy, k + 1) := (scan_hits_all _ hmem).2.1
  have hs3 : scanLoop namedDevices 1
      (lowerAscii ((namedDevices.getD k devDummy).name.getD "")) =
      some (namedDevices.getD k devDummy, k + 1) := (scan_hits_all _ hmem).2.2
  refine ⟨?_, ?_, ?_⟩
  · simp only [get_device]
    rw [hs1]
  · simp only [get_device]
    rw [hs2]
  · simp only [get_device]
    rw [hs3]

set_option maxRecDepth 1000000 in
/-- Concrete C5 run: the first named device (table index 1) is found under
its table spelling and its lowercase spelling. -/
theorem claimC5_witness :
    get_device SymTable.empty
      (some ((namedDevices.getD 0 devDummy).name.getD "")) =
      (some (namedDevices.getD 0 devDummy), 1, def_dev SymTable.empty 1) ∧
    get_device SymTable.empty
      (some (lowerAscii ((namedDevices.getD 0 devDummy).name.getD ""))) =
      (some (namedDevices.getD 0 devDummy), 1, def_dev SymTable.empty 1) := by
  have h := claimC5 SymTable.empty 0 (by decide)
  exact ⟨h.1, h.2.2⟩

set_option maxRecDepth 1000000 in
/-- C6: in pass 1, if the first device-derived name that is already bound
in the table — as a constant or as a variable — is the one at position k
of the processing order, the verifier fails with a duplicate-symbol error
naming exactly that symbol; in particular a second pass-1 run over the
table produced by a first run fails that way on its very first symbol,
the sentinel's DEFAULT name. -/
theorem claimC6 :
    (∀ (st : SymTable) (l k : Nat),
      k < (loopNames procDevices 0).length →
      (∀ m, m < k →
        lookupConst st ((loopNames procDevices 0).getD m ("", 0)).1 = none ∧
        lookupVar st ((loopNames procDevices 0).getD m ("", 0)).1 = none) →
      ((lookupConst st ((loopNames procDevices 0).getD k ("", 0)).1).isSome ∨
        (lookupVar st ((loopNames procDevices 0).getD k ("", 0)).1).isSome) →
      (predef_dev .one l st).1 =
        some (.DuplicateSymbol ((loopNames procDevices 0).getD k ("", 0)).1)) ∧
    ((predef_dev .one 0 SymTable.empty).1 = none ∧
      (predef_dev .one 0 (predef_dev .one 0 SymTable.empty).2).1 =
        some (.DuplicateSymbol (buildSymName DEF_DEV_NAME))) := by
  constructor
  · intro st l k hk hfirst hdup
    have hklen : k < procDevices.length := by
      rw [loopNames_length] at hk
      exact hk
    have hmem : ∀ m, m < (loopNames procDevices 0).length →
        (loopNames procDevices 0).getD m ("", 0) ∈ loopNames procDevices 0 :=
      fun m hm => getD_mem_of_lt _ m _ hm
    refine predefLoop_one_dup procDevices 0 k (def_dev st l) hklen
      pnKeys_nodup ?_ ?_
    · intro m hm
      have h4 := pn_not_var_names _ (hmem m (by omega))
      have hsm := hfirst m hm
      exact ⟨(lookupConst_def_dev st l _).trans hsm.1,
        (lookupVar_def_dev_other st l _ h4.1 h4.2.1 h4.2.2.1 h4.2.2.2).trans
          hsm.2⟩
    · have h4 := pn_not_var_names _ (hmem k hk)
      rcases hdup with hc | hv
      · exact Or.inl (by rw [lookupConst_def_dev]; exact hc)
      · refine Or.inr ?_
        rw [lookupVar_def_dev_other st l _ h4.1 h4.2.1 h4.2.2.1 h4.2.2.2]
        exact hv
  · exact ⟨by decide, by decide⟩

set_option maxRecDepth 1000000 in
/-- Concrete C6 run: with the second processed name (the first named
device's symbol) pre-bound as a constant, pass 1 fails with a
duplicate-symbol error naming it. -/
theorem claimC6_witness :
    (predef_dev .one 0
      ⟨[(((loopNames procDevices 0).getD 1 ("", 0)).1, 7)], []⟩).1 =
      some (.DuplicateSymbol ((loopNames procDevices 0).getD 1 ("", 0)).1) := by
  refine claimC6.1 ⟨[(((loopNames procDevices 0).getD 1 ("", 0)).1, 7)], []⟩
    0 1 (by decide) ?_ ?_
  · intro m hm
    have hm0 : m = 0 := by omega
    subst hm0
    exact ⟨by decide, rfl⟩
  · exact Or.inl (by decide)

/-- C7: every derived symbol name is the fixed two-character opening
delimiter, then the device name (or the DEFAULT literal for the sentinel)
truncated to MAX_DEV_NAME characters, then the fixed two-character closing
delimiter; names of at most MAX_DEV_NAME characters pass through intact,
and longer names are silently cut to exactly MAX_DEV_NAME characters. -/
theorem claimC7 :
    (∀ (i : Nat) (d : Device), symNameOf i d =
      DEV_PRE ++ String.mk
        ((if i = 0 then DEF_DEV_NAME else d.name.getD "").data.take
          MAX_DEV_NAME) ++ DEV_SUF) ∧
    (∀ s : String, s.length ≤ MAX_DEV_NAME →
      buildSymName s = DEV_PRE ++ s ++ DEV_SUF) ∧
    (∀ s : String, MAX_DEV_NAME < s.length →
      buildSymName s =
        DEV_PRE ++ String.mk (s.data.take MAX_DEV_NAME) ++ DEV_SUF ∧
      (buildSymName s).length = MAX_DEV_NAME + 4) := by
  have hbuild : ∀ s : String, buildSymName s =
      DEV_PRE ++ String.mk (s.data.take MAX_DEV_NAME) ++ DEV_SUF := by
    intro s
    rfl
  refine ⟨fun i d => hbuild _, ?_, ?_⟩
  · intro s hs
    rw [hbuild s, List.take_of_length_le (show s.data.length ≤ MAX_DEV_NAME from hs)]
  · intro s hs
    refine ⟨hbuild s, ?_⟩
    have hs1 : MAX_DEV_NAME < s.data.length := hs
    show ((DEV_PRE.data.take MAX_DEV_NAME ++ s.data.take MAX_DEV_NAME) ++
      DEV_SUF.data.take MAX_DEV_NAME).length = MAX_DEV_NAME + 4
    rw [show DEV_PRE.data.take MAX_DEV_NAME = DEV_PRE.data from rfl,
      show DEV_SUF.data.take MAX_DEV_NAME = DEV_SUF.data from rfl,
      List.length_append, List.length_append, List.length_take,
      show DEV_PRE.data.length = 2 from rfl,
      show DEV_SUF.data.length = 2 from rfl]
    simp only [MAX_DEV_NAME] at hs1 ⊢
    omega

/-- Concrete C7 runs: a short name passes through untruncated; a 36-character
name is cut to 32 characters between the delimiters. -/
theorem claimC7_witness :
    buildSymName "ATtiny85" = DEV_PRE ++ "ATtiny85" ++ DEV_SUF ∧
    buildSymName "ABCDEFGHIJKLMNOPQRSTUVWXYZ0123456789" =
      DEV_PRE ++ String.mk
        ("ABCDEFGHIJKLMNOPQRSTUVWXYZ0123456789".data.take MAX_DEV_NAME) ++
        DEV_SUF ∧
    (buildSymName "ABCDEFGHIJKLMNOPQRSTUVWXYZ0123456789").length =
      MAX_DEV_NAME + 4 := by
  exact ⟨claimC7.2.1 "ATtiny85" (by decide),
    (claimC7.2.2 "ABCDEFGHIJKLMNOPQRSTUVWXYZ0123456789" (by decide)).1,
    (claimC7.2.2 "ABCDEFGHIJKLMNOPQRSTUVWXYZ0123456789" (by decide)).2⟩

/-- The registry entries strictly between the index-0 sentinel and the
final terminating entry. -/
def innerDevices : List Device :=
  (device_list.drop 1).take (device_list.length - 2)

set_option maxRecDepth 1000000 in
/-- C8: the entry at index 0 is the sentinel with a null name; every entry
between it and the final terminating null-name entry has a non-null name;
those names are pairwise distinct even after lowercasing; every entry's
flash, RAM and EEPROM sizes are non-negative; and the named entries are
exactly the ones the lookup scan visits. -/
theorem claimC8 :
    (devAt 0).name = none ∧
    (devAt (device_list.length - 1)).name = none ∧
    innerDevices.all (fun d => d.name.isSome) = true ∧
    (innerDevices.map (fun d => lowerAscii (d.name.getD ""))).Nodup ∧
    device_list.all (fun d => decide (0 ≤ d.flash_size) &&
      decide (0 ≤ d.ram_size) && decide (0 ≤ d.eeprom_size)) = true ∧
    namedDevices = innerDevices := by
  refine ⟨by decide, by decide, by decide, by decide, by decide, by decide⟩

/-- C9: on every invocation, in either pass and whatever the outcome of
the device iteration, predef_dev has written the four derived variables
from the descriptor the selection state points to — the def_dev call that
runs before the loop touches any device — and the loop itself never
writes a variable. -/
theorem claimC9 (p : Pass) (l : Nat) (st : SymTable) :
    lookupVar (predef_dev p l st).2 DEV_VAR = some (l : Int) ∧
    lookupVar (predef_dev p l st).2 FLASH_VAR = some (devAt l).flash_size ∧
    lookupVar (predef_dev p l st).2 EEPROM_VAR = some (devAt l).eeprom_size ∧
    lookupVar (predef_dev p l st).2 RAM_VAR = some (devAt l).ram_size ∧
    (predef_dev p l st).2.vars = (def_dev st l).vars ∧
    predef_dev p l st = predefLoop p procDevices 0 (def_dev st l) := by
  have hv : (predef_dev p l st).2.vars = (def_dev st l).vars :=
    predefLoop_vars p procDevices 0 (def_dev st l)
  refine ⟨?_, ?_, ?_, ?_, hv, rfl⟩
  · show List.lookup DEV_VAR (predef_dev p l st).2.vars = some (l : Int)
    rw [hv]
    exact lookupVar_def_dev_idx st l
  · show List.lookup FLASH_VAR (predef_dev p l st).2.vars =
      some (devAt l).flash_size
    rw [hv]
    exact lookupVar_def_dev_flash st l
  · show List.lookup EEPROM_VAR (predef_dev p l st).2.vars =
      some (devAt l).eeprom_size
    rw [hv]
    exact lookupVar_def_dev_eeprom st l
  · show List.lookup RAM_VAR (predef_dev p l st).2.vars =
      some (devAt l).ram_size
    rw [hv]
    exact lookupVar_def_dev_ram st l

set_option maxRecDepth 1000000 in
/-- C10: every named device in the shipped registry keeps its derived
symbol name within MAX_DEV_NAME characters, is never actually truncated,
and together with the delimiters and the terminating NUL fits the
MAX_DEV_NAME + 1 byte buffer of predef_dev. -/
theorem claimC10 : ∀ d ∈ namedDevices,
    (buildSymName (d.name.getD "")).length ≤ MAX_DEV_NAME ∧
    (d.name.getD "").length ≤ MAX_DEV_NAME ∧
    buildSymName (d.name.getD "") = DEV_PRE ++ (d.name.getD "") ++ DEV_SUF ∧
    2 + (d.name.getD "").length + 2 + 1 ≤ MAX_DEV_NAME + 1 := by
  decide

set_option maxRecDepth 1000000 in
/-- Concrete C10 run at the first named device of the registry. -/
theorem claimC10_witness :
    (buildSymName ((devAt 1).name.getD "")).length ≤ MAX_DEV_NAME ∧
    ((devAt 1).name.getD "").length ≤ MAX_DEV_NAME ∧
    buildSymName ((devAt 1).name.getD "") =
      DEV_PRE ++ ((devAt 1).name.getD "") ++ DEV_SUF ∧
    2 + ((devAt 1).name.getD "").length + 2 + 1 ≤ MAX_DEV_NAME + 1 :=
  claimC10 (devAt 1) (by decide)
